/-
  Verification of the analytics event pipeline of the autizimappb backend.

  Shallow embedding of:
  - `analytics/intent_model.py`  (live intent scorer)
  - `_ARCHIVE_DO_NOT_TOUCH/.../app/analytics/intent.py` (archived scorer)
  - `app/workers/analytics_worker.py` (pipeline worker)
  - `analytics/identity_stitching.py` (identity stitcher)
  - `app/api/v1/search.py`, `app/main.py` (geo-search cache paths)
  - `app/api/v1/analytics.py`, `app/services/user_activity_service.py`
    (event logging with intent scores)
  - `app/services/cache.py` (CacheService)

  Python floats are modelled as rationals (ℚ); every constant involved is a
  small decimal and no property below depends on binary rounding.  Python
  dictionaries are modelled as ordered association lists; dynamic typing of
  metadata values is modelled with a scalar sum type `Val`, and Python
  exceptions (TypeError on heterogeneous comparisons, storage errors) with
  `Except String`.
-/
import Mathlib

deriving instance DecidableEq for Except

namespace Autizim

/-- A scalar value of an event-metadata mapping (Python dict values). -/
inductive Val where
  | vInt  (n : Int)
  | vRat  (q : ℚ)
  | vStr  (s : String)
  | vBool (b : Bool)
  | vNull
  deriving DecidableEq, Repr

/-- An ordered string-keyed mapping of scalar values (a Python `dict`). -/
abbrev Metadata := List (String × Val)

/-- Python `d.get(k, default)` on a dict. -/
def mdGetD (md : Metadata) (k : String) (d : Val) : Val :=
  (md.lookup k).getD d

/-- Python `v < m` where `m` is an int: succeeds on numeric/bool values,
raises `TypeError` on strings and `None`. -/
def pyLtInt : Val → Int → Except String Bool
  | .vInt n, m  => .ok (decide (n < m))
  | .vRat q, m  => .ok (decide (q < (m : ℚ)))
  | .vBool b, m => .ok (decide ((if b then (1 : Int) else 0) < m))
  | .vStr _, _  => .error "TypeError: < not supported between str and int"
  | .vNull, _   => .error "TypeError: < not supported between NoneType and int"

/-- Python `v <= m` where `m` is an int. -/
def pyLeInt : Val → Int → Except String Bool
  | .vInt n, m  => .ok (decide (n ≤ m))
  | .vRat q, m  => .ok (decide (q ≤ (m : ℚ)))
  | .vBool b, m => .ok (decide ((if b then (1 : Int) else 0) ≤ m))
  | .vStr _, _  => .error "TypeError: <= not supported between str and int"
  | .vNull, _   => .error "TypeError: <= not supported between NoneType and int"

/-- Python truthiness of a scalar value. -/
def pyTruthy : Val → Bool
  | .vInt n  => n ≠ 0
  | .vRat q  => q ≠ 0
  | .vStr s  => s ≠ ""
  | .vBool b => b
  | .vNull   => false

/-- Python `s.lower()` on a string (ASCII case folding). -/
def pyLower (s : String) : String :=
  ⟨s.data.map Char.toLower⟩

/-- Python `v.lower()` applied to a value expected to be a string:
raises `AttributeError` on non-strings. -/
def pyStrLower : Val → Except String String
  | .vStr s => .ok (pyLower s)
  | _       => .error "AttributeError: object has no attribute lower"

/-- Python substring test `w in q`. -/
def pyIn (w q : String) : Bool :=
  decide (w.data <:+: q.data)

/-! ## `analytics/intent_model.py` — the live intent scorer -/

/-- The `base_scores` lookup of `analytics/intent_model.py::score_intent`
(`dict.get(event_type, 0.3)`). -/
def intentBase (event_type : String) : ℚ :=
  if event_type = "provider_list" then 1/5
  else if event_type = "search" then 2/5
  else if event_type = "fuzzy_search" then 1/2
  else if event_type = "nearby_search" then 3/5
  else if event_type = "provider_view" then 7/10
  else if event_type = "phone_click" then 19/20
  else if event_type = "website_click" then 9/10
  else 3/10

/-- Model of `analytics/intent_model.py::score_intent`.  The three metadata
adjustments run only when `metadata` is truthy (non-empty), in source
order, each comparison able to raise `TypeError`; the result is capped at
`1.0` (`min(score, 1.0)` — no lower clamp in this variant). -/
def score_intent (event_type : String) (metadata : Metadata) : Except String ℚ :=
  let base := intentBase event_type
  if metadata = [] then .ok (min base 1)
  else
    match (if event_type = "search"
           then pyLtInt (mdGetD metadata "result_count" (.vInt 0)) 10
           else .ok false) with
    | .error e => .error e
    | .ok b1 =>
      let s1 := if b1 then base + 1/10 else base
      match pyLtInt (mdGetD metadata "response_ms" (.vInt 0)) 100 with
      | .error e => .error e
      | .ok b2 =>
        let s2 := if b2 then s1 + 1/20 else s1
        match (if event_type = "nearby_search"
               then pyLeInt (mdGetD metadata "radius" (.vInt 25)) 10
               else .ok false) with
        | .error e => .error e
        | .ok b3 =>
          let s3 := if b3 then s2 + 1/10 else s2
          .ok (min s3 1)

/-! ## archived scorer `app/analytics/intent.py` -/

/-- The `base_scores` lookup of the archived
`backend_duplicate/app/analytics/intent.py::score_intent`
(`dict.get(event_type, 0.1)`). -/
def archiveBase (event_type : String) : ℚ :=
  if event_type = "search" then 3/10
  else if event_type = "fuzzy_search" then 2/5
  else if event_type = "nearby_search" then 3/5
  else if event_type = "provider_view" then 7/10
  else if event_type = "provider_list" then 1/5
  else if event_type = "phone_click" then 19/20
  else if event_type = "website_click" then 17/20
  else if event_type = "directions_click" then 9/10
  else if event_type = "email_click" then 4/5
  else if event_type = "favorite_save" then 3/4
  else 1/10

/-- urgency-keyword hit in the lowered query string. -/
def urgencyHit (q : String) : Bool :=
  ["asap", "urgent", "emergency", "immediate", "now"].any (fun w => pyIn w q)

/-- quality-keyword hit. -/
def qualityHit (q : String) : Bool :=
  ["best", "top", "rated", "reviews"].any (fun w => pyIn w q)

/-- high-value service-keyword hit. -/
def serviceHit (q : String) : Bool :=
  ["aba", "bcba", "board certified"].any (fun w => pyIn w q)

/-- price-sensitivity keyword hit. -/
def priceHit (q : String) : Bool :=
  ["cheap", "affordable", "free"].any (fun w => pyIn w q)

/-- The adjustment chain of the archived scorer applied to a base score:
keyword boosts/penalty, repeat-view boost, fast-action boost, then clamp
to `[0,1]` (`max(0.0, min(1.0, score))`). -/
def archiveAdjust (base : ℚ) (metadata : Metadata) : Except String ℚ :=
  match pyStrLower (mdGetD metadata "query" (.vStr "")) with
  | .error e => .error e
  | .ok q =>
    let s1 := if urgencyHit q then base + 1/5 else base
    let s2 := if qualityHit q then s1 + 1/10 else s1
    let s3 := if serviceHit q then s2 + 3/20 else s2
    let s4 := if priceHit q then s3 - 1/10 else s3
    let s5 := if pyTruthy (mdGetD metadata "repeat_view" .vNull) then s4 + 3/20 else s4
    match pyLtInt (mdGetD metadata "response_ms" (.vInt 99999)) 5000 with
    | .error e => .error e
    | .ok b =>
      let s6 := if b then s5 + 1/20 else s5
      .ok (max 0 (min 1 s6))

/-- Archived `intent.py::score_intent`: base lookup then the adjustment
chain. -/
def score_intent_archive (event_type : String) (metadata : Metadata) :
    Except String ℚ :=
  archiveAdjust (archiveBase event_type) metadata

/-! ## `app/workers/analytics_worker.py` — the Pipeline Worker

Events claimed from the Redis stream are flat string-keyed string maps
(the client is created with `decode_responses=True`).

The worker's two DB helpers both open their connection as
`conn = get_db()`, but `db/connection.py::get_db` is decorated
`@contextmanager`: calling it returns a `_GeneratorContextManager`, not a
connection (only `with get_db() as conn` yields one, the style
`user_activity_service.py` uses).  So the very next line,
`cur = conn.cursor()`, raises `AttributeError` before any SQL statement
is built, executed or committed. -/

/-- A claimed log entry's field map (Python `Dict[str, str]`). -/
abbrev EventMap := List (String × String)

/-- Python `event.get(k)` on the claimed field map. -/
def evGet (ev : EventMap) (k : String) : Option String :=
  ev.lookup k

/-- Python `event.get("event") or event.get("event_type") or ""`:
`or` takes the first truthy operand (`None` and `""` are falsy). -/
def eventTypeOf (ev : EventMap) : String :=
  match evGet ev "event" with
  | some s => if s = "" then (evGet ev "event_type").getD "" else s
  | none   =>
    match evGet ev "event_type" with
    | some s => s
    | none   => ""

/-- A whitespace character in the sense of Python `str.strip()`. -/
def pySpace (c : Char) : Bool :=
  c = ' ' ∨ c = '\t' ∨ c = '\n' ∨ c = '\r' ∨ c = '\x0b' ∨ c = '\x0c'

/-- Python `int(s)` on a string: optional surrounding whitespace, optional
sign, then digit groups separated by single underscores; anything else
raises `ValueError` (modelled as `none`). -/
def pyIntOfString (s : String) : Option Int :=
  let t := ((s.data.dropWhile pySpace).reverse.dropWhile pySpace).reverse
  let (neg, u) :=
    match t with
    | '-' :: rest => (true, rest)
    | '+' :: rest => (false, rest)
    | _ => (false, t)
  let groups := List.splitOn '_' u
  if groups.all (fun g => g ≠ [] ∧ g.all Char.isDigit) then
    let digits := groups.foldl (· ++ ·) ([] : List Char)
    let n : Nat := digits.foldl (fun acc c => 10 * acc + (c.toNat - 48)) 0
    some (if neg then -(n : Int) else (n : Int))
  else none

/-- One row of the append-only `user_activity` table, as the worker's
`persist_user_activity` INSERT writes it (the full original field map is
kept in `metadata`; `user_id` is not in the INSERT column list, so it is
NULL until identity stitching sets it). -/
structure ActivityRow where
  event_type  : Option String
  provider_id : Option String
  session_id  : Option String
  device_id   : Option String
  ip_hash     : Option String
  source      : Option String
  metadata    : EventMap
  ts          : Nat
  user_id     : Option Int
  deriving DecidableEq, Repr

/-- Model of `analytics_worker.py::persist_user_activity`: its first two
lines are `conn = get_db()` and `cur = conn.cursor()`, and `get_db` is a
`@contextmanager` generator, so the cursor call raises `AttributeError`
unconditionally — before the INSERT is built and before any commit.  The
result is the `user_activity` table after the call. -/
def persist_user_activity (ev : EventMap) (rows : List ActivityRow)
    (now : Nat) : Except String (List ActivityRow) :=
  .error "AttributeError: _GeneratorContextManager object has no attribute cursor"

/-- One row of the `provider_stats` table (`provider_id` is the unique
key). -/
structure StatsRow where
  provider_id   : Int
  views         : Int
  searches      : Int
  conversions   : Int
  last_event_at : Nat
  deriving DecidableEq, Repr

/-- Model of `analytics_worker.py::update_provider_stats`: early-return
(no DB access at all) when `provider_id` is absent, `""`, `"null"` or
unparseable, or when the event type carries no tracked signal.  On the
remaining branch the source would run its
`INSERT ... ON CONFLICT (provider_id) DO UPDATE` upsert, but it first
executes `conn = get_db()` / `cur = conn.cursor()`, which raises
`AttributeError` (see the section comment) before the SQL runs.  The
result is the `provider_stats` table after the call. -/
def update_provider_stats (ev : EventMap) (stats : List StatsRow) (now : Nat) :
    Except String (List StatsRow) :=
  let event_type := eventTypeOf ev
  match evGet ev "provider_id" with
  | none => .ok stats
  | some raw =>
    if raw = "" ∨ raw = "null" then .ok stats
    else
      match pyIntOfString raw with
      | none => .ok stats
      | some _ =>
        let views_inc : Int := if event_type = "provider_view" then 1 else 0
        let phone_inc : Int :=
          if event_type = "provider_phone_click" ∨ event_type = "phone_click"
          then 1 else 0
        let website_inc : Int :=
          if event_type = "provider_website_click" ∨ event_type = "website_click"
          then 1 else 0
        if views_inc = 0 ∧ phone_inc = 0 ∧ website_inc = 0 then .ok stats
        else .error "AttributeError: _GeneratorContextManager object has no attribute cursor"

/-- The two tables the worker writes. -/
structure WorkerDB where
  user_activity  : List ActivityRow
  provider_stats : List StatsRow
  deriving DecidableEq, Repr

/-- Worker-visible state: the durable store plus the set of acknowledged
stream entry ids. -/
structure WorkerState where
  db    : WorkerDB
  acked : List String
  deriving DecidableEq, Repr

/-- One iteration of the worker loop body for one claimed entry
(`run`'s `try: persist_user_activity; update_provider_stats; xack` with
a blanket `except` that only prints).  Each helper commits on its own
connection, so a raise in the second step would leave the first step's
insert committed; the entry is acknowledged only when both steps
returned.  Because `persist_user_activity` raises on every call (see its
definition), the body in fact always takes the first `except` path:
nothing is written and nothing is acknowledged. -/
def processEntry (st : WorkerState) (mid : String) (ev : EventMap)
    (now : Nat) : WorkerState :=
  match persist_user_activity ev st.db.user_activity now with
  | .error _ => st
  | .ok ua =>
    match update_provider_stats ev st.db.provider_stats now with
    | .error _ => { st with db := { st.db with user_activity := ua } }
    | .ok ps => { db := ⟨ua, ps⟩, acked := st.acked ++ [mid] }

/-- The `views` counter the store holds for `pid` (0 when no row). -/
def statViews (stats : List StatsRow) (pid : Int) : Int :=
  ((stats.find? (fun r => r.provider_id = pid)).map StatsRow.views).getD 0

/-! ## `analytics/identity_stitching.py` — the Identity Stitcher -/

/-- Does a `user_activity` row match the stitcher's
`WHERE session_id = %s AND user_id IS NULL`?  (SQL `=` is false on a NULL
`session_id`.) -/
def stitchMatch (s : String) (r : ActivityRow) : Bool :=
  r.session_id = some s ∧ r.user_id = none

/-- The effect of the stitcher's single conditional bulk
`UPDATE user_activity SET user_id = %s WHERE session_id = %s AND user_id
IS NULL` on the table. -/
def stitchUpdate (s : String) (u : Int) (rows : List ActivityRow) :
    List ActivityRow :=
  rows.map (fun r => if stitchMatch s r then { r with user_id := some u } else r)

/-- The `cur.rowcount` of that UPDATE. -/
def stitchCount (s : String) (rows : List ActivityRow) : Int :=
  (rows.countP (stitchMatch s ·) : Nat)

/-- Where, if anywhere, a storage error strikes inside the stitcher's
`try` block. -/
inductive MergeFault where
  | none | atExecute | atCommit
  deriving DecidableEq, Repr

/-- Model of `identity_stitching.py::merge_anonymous_history_into_user`: the UPDATE
and `conn.commit()` run inside `try`; any exception is caught, logged and
turned into a `0` return.  A raise at execute leaves the table untouched;
a raise at commit means the transaction was never committed, so the table
is also untouched.  Value: the table after the call and the returned
merged count; `Except` shows the call itself never raises. -/
def merge_anonymous_history_into_user (f : MergeFault) (s : String) (u : Int)
    (rows : List ActivityRow) : Except String (List ActivityRow × Int) :=
  let attempt : Except String (List ActivityRow × Int) :=
    match f with
    | .atExecute => .error "storage error during UPDATE"
    | .atCommit  => .error "storage error during COMMIT"
    | .none      => .ok (stitchUpdate s u rows, stitchCount s rows)
  match attempt with
  | .ok r    => .ok r
  | .error _ => .ok (rows, 0)

/-! ## Geo-Search Cache (`app/api/v1/search.py::nearby`, `app/main.py::nearby`)

The cache value space is abstract (`R`); the geospatial query executor is
an abstract function parameter, and JSON round-tripping of its
JSON-representable row lists is the identity. -/

/-- Whether the Redis instance backing the cache is reachable; when it is
`down`, every Redis call raises. -/
inductive CacheHealth where
  | healthy | down
  deriving DecidableEq, Repr

/-- Cache contents: key, value, absolute expiry time. -/
abbrev Cache (R : Type) := List (String × R × Nat)

/-- Redis `get(k)` at time `t`: the stored value while unexpired. -/
def cacheFetch {R : Type} (c : Cache R) (k : String) (t : Nat) : Option R :=
  match c.find? (fun e => e.1 = k) with
  | some (_, v, exp) => if t < exp then some v else none
  | none => none

/-- Redis `setex(k, ttl, v)` at time `t`: replaces any entry for
`k`, expiring at `t + ttl`. -/
def cacheStore {R : Type} (c : Cache R) (k : String) (v : R) (ttl t : Nat) :
    Cache R :=
  (k, v, t + ttl) :: c.filter (fun e => e.1 ≠ k)

/-- The guarded cache read of `app/api/v1/search.py::cache_get` and
`app/services/cache.py::CacheService.get`: the Redis call is wrapped in
`try/except` and any failure returns `None` (a miss). -/
def cache_get {R : Type} (h : CacheHealth) (c : Cache R) (k : String) (t : Nat) :
    Option R :=
  match h with
  | .down => none
  | .healthy => cacheFetch c k t

/-- The guarded cache write of `app/api/v1/search.py::cache_set` and
`app/services/cache.py::CacheService.set`: any failure is swallowed
(`except Exception: pass`), leaving the cache unchanged. -/
def cache_set {R : Type} (h : CacheHealth) (c : Cache R) (k : String) (v : R)
    (ttl t : Nat) : Cache R :=
  match h with
  | .down => c
  | .healthy => cacheStore c k v ttl t

/-- Request-path cache state: the cache plus how many times the
underlying geospatial query executor has been invoked. -/
structure GeoState (R : Type) where
  cache : Cache R
  calls : Nat

/-- One element of a nearby-search result list as the handler computes
it: in `app/api/v1/search.py` each element is a pydantic `Provider`
model, in `app/main.py` a row dict whose `distance_miles` is a `Decimal`
(SQL `numeric`).  JSON-native scalars stand for themselves; any other
object is represented by the `str()` rendering that
`json.dumps(..., default=str)` will emit for it. -/
inductive PyObj where
  | pStr  (s : String)
  | pNum  (q : ℚ)
  | pBool (b : Bool)
  | pNone
  | pObj  (strOf : String)
  deriving DecidableEq, Repr

/-- The net effect of `json.dumps(v, default=str)` followed by
`json.loads` on one result element: JSON-native scalars survive the
round trip unchanged, while a non-JSON-native object (a pydantic
`Provider`, a `Decimal`) is emitted via `default=str` and loads back as
a plain JSON string. -/
def jsonRoundTrip : PyObj → PyObj
  | .pObj r => .pStr r
  | v       => v

/-- The shared read-through shape of both `nearby` handlers against a
healthy cache: on hit, `json.loads` the stored text and return it; on
miss, run the query executor, populate the cache with
`json.dumps(results, default=str)` under the fixed TTL, and return the
fresh (un-serialized) result.  The cache is modelled as holding the
loaded form of the stored JSON text, i.e. the element-wise
`jsonRoundTrip` of the executor result. -/
def readThrough {P : Type} (exec : P → List PyObj) (keyOf : P → String)
    (ttl : Nat) (st : GeoState (List PyObj)) (p : P) (t : Nat) :
    List PyObj × GeoState (List PyObj) :=
  match cacheFetch st.cache (keyOf p) t with
  | some cached => (cached, st)
  | none =>
    let rows := exec p
    (rows,
     { cache := cacheStore st.cache (keyOf p) (rows.map jsonRoundTrip) ttl t
       calls := st.calls + 1 })

/-- Model of `app/api/v1/search.py::nearby` (`SEARCH_CACHE_TTL = 60`): cache access
goes through the guarded `cache_get`/`cache_set`, so a down cache
degrades to miss-then-skip-population and the handler never raises. -/
def searchNearby {P : Type} (h : CacheHealth) (exec : P → List PyObj)
    (keyOf : P → String) (ttl : Nat) (st : GeoState (List PyObj)) (p : P)
    (t : Nat) : List PyObj × GeoState (List PyObj) :=
  match h with
  | .healthy => readThrough exec keyOf ttl st p t
  | .down =>
    let rows := exec p
    (rows, { cache := st.cache, calls := st.calls + 1 })

/-- Model of `app/main.py::nearby` (TTL 3600): `redis_client.get` and
`redis_client.setex` are called with no `try/except`, so when Redis is
down the exception propagates and the request fails. -/
def mainNearby {P : Type} (h : CacheHealth) (exec : P → List PyObj)
    (keyOf : P → String) (st : GeoState (List PyObj)) (p : P) (t : Nat) :
    Except String (List PyObj × GeoState (List PyObj)) :=
  match h with
  | .down => .error "redis.exceptions.ConnectionError"
  | .healthy => .ok (readThrough exec keyOf 3600 st p t)

/-! ## Event logging (`app/services/user_activity_service.py::log_event`,
`app/api/v1/analytics.py::track_search_result`) -/

/-- Python `d[k] = v` on an ordered dict: replace in place or append. -/
def dictSet (md : Metadata) (k : String) (v : Val) : Metadata :=
  if (md.lookup k).isSome then
    md.map (fun p => if p.1 = k then (k, v) else p)
  else md ++ [(k, v)]

/-- An optional string as a metadata value (`None` → JSON null). -/
def optStrVal : Option String → Val
  | some s => .vStr s
  | none   => .vNull

/-- An optional int as a metadata value. -/
def optIntVal : Option Int → Val
  | some n => .vInt n
  | none   => .vNull

/-- One row of the `analytics_events_v2` table as
`log_event`'s INSERT writes it. -/
structure AnalyticsEventRow where
  event_name   : String
  provider_id  : Option Int
  specialty_id : Option Int
  query_text   : Option String
  city         : Option String
  state        : Option String
  radius_miles : Option Int
  source       : String
  metadata     : Metadata
  deriving DecidableEq, Repr

/-- Model of `user_activity_service.py::log_event`: the metadata payload gets
`intent_score` (when given) plus `path` and `method` added, and is stored
as-is — in particular the intent score is written unmodified, with no
clamping (`_safe_json` is the identity on scalar values). -/
def log_event (event_type : String) (metadata : Metadata)
    (provider_id specialty_id : Option Int)
    (query_text city state : Option String) (radius_miles : Option Int)
    (source : String) (intent_score : Option ℚ) (path method : String) :
    AnalyticsEventRow :=
  let payload := metadata
  let payload :=
    match intent_score with
    | some q => dictSet payload "intent_score" (.vRat q)
    | none   => payload
  let payload := dictSet payload "path" (.vStr path)
  let payload := dictSet payload "method" (.vStr method)
  { event_name := event_type
    provider_id := provider_id
    specialty_id := specialty_id
    query_text := query_text
    city := city
    state := state
    radius_miles := radius_miles
    source := source
    metadata := payload }

/-- The request body of `POST /analytics/track/search_result`. -/
structure SearchResultEvent where
  query         : Option String
  city          : Option String
  state         : Option String
  radius_miles  : Option Int
  results_count : Int
  deriving DecidableEq, Repr

/-- The constant `analytics.py::LOW_RESULT_THRESHOLD`. -/
def LOW_RESULT_THRESHOLD : Int := 2

/-- Model of `analytics.py::track_search_result`: classifies the search as
unmet / low-supply / satisfied and logs it with the fixed intent score
`1.5 if unmet else 1.2 if low_supply else 0.5`.  Value: the
`analytics_events_v2` row written by its `log_event` call. -/
def track_search_result (p : SearchResultEvent) (path method : String) :
    AnalyticsEventRow :=
  let unmet := p.results_count = 0
  let low_supply := p.results_count ≤ LOW_RESULT_THRESHOLD
  let event_type :=
    if unmet then "search_unmet"
    else if low_supply then "search_low_supply"
    else "search_satisfied"
  log_event event_type
    [("query", optStrVal p.query), ("city", optStrVal p.city),
     ("state", optStrVal p.state), ("radius_miles", optIntVal p.radius_miles),
     ("results_count", .vInt p.results_count)]
    none none none none none none "search"
    (some (if unmet then 3/2 else if low_supply then 6/5 else 1/2))
    path method

/-- Does an event type carry one of the worker's tracked revenue signals
(view, phone click, website click)? -/
def trackedSignal (event_type : String) : Bool :=
  event_type = "provider_view" ∨ event_type = "provider_phone_click"
    ∨ event_type = "phone_click" ∨ event_type = "provider_website_click"
    ∨ event_type = "website_click"

/-- Is the event's `provider_id` field absent, empty, the string
`"null"`, or unparseable as an integer? -/
def badProviderId (ev : EventMap) : Bool :=
  match evGet ev "provider_id" with
  | none => true
  | some raw => raw = "" ∨ raw = "null" ∨ (pyIntOfString raw).isNone

/-! # Theorems -/

/-- The live scorer's base table lies in `[1/5, 19/20]`. -/
theorem intentBase_bounds (et : String) :
    1/5 ≤ intentBase et ∧ intentBase et ≤ 19/20 := by
  unfold intentBase
  split_ifs <;> norm_num

/-- The archived scorer's base table lies in `[1/10, 19/20]`. -/
theorem archiveBase_bounds (et : String) :
    1/10 ≤ archiveBase et ∧ archiveBase et ≤ 19/20 := by
  unfold archiveBase
  split_ifs <;> norm_num

/-- Whenever the live scorer returns a value, it lies in `[0,1]`. -/
theorem score_intent_ok_bounds (et : String) (md : Metadata) (q : ℚ)
    (h : score_intent et md = .ok q) : 0 ≤ q ∧ q ≤ 1 := by
  have hb := intentBase_bounds et
  simp only [score_intent] at h
  split at h
  · injection h with h
    subst q
    exact ⟨le_min (by linarith [hb.1]) zero_le_one, min_le_right _ _⟩
  · split at h
    · exact absurd h (by simp)
    · split at h
      · exact absurd h (by simp)
      · split at h
        · exact absurd h (by simp)
        · injection h with h
          subst q
          constructor
          · refine le_min ?_ zero_le_one
            split_ifs <;> linarith [hb.1]
          · exact min_le_right _ _

/-- Whenever the archived scorer returns a value, it lies in `[0,1]`
(its final clamp is two-sided). -/
theorem score_intent_archive_ok_bounds (et : String) (md : Metadata) (q : ℚ)
    (h : score_intent_archive et md = .ok q) : 0 ≤ q ∧ q ≤ 1 := by
  simp only [score_intent_archive, archiveAdjust] at h
  split at h
  · exact absurd h (by simp)
  · split at h
    · exact absurd h (by simp)
    · injection h with h
      subst q
      exact ⟨le_max_left _ _, max_le zero_le_one (min_le_left _ _)⟩

/-- C4 (amended): on every metadata mapping on which it does not raise a
`TypeError` from comparing a non-numeric metadata value, `score_intent`
(live and archived variants) returns a score in the closed interval
`[0,1]`. -/
theorem intent_score_in_unit_interval (et : String) (md : Metadata) (q : ℚ) :
    (score_intent et md = .ok q → 0 ≤ q ∧ q ≤ 1) ∧
    (score_intent_archive et md = .ok q → 0 ≤ q ∧ q ≤ 1) :=
  ⟨score_intent_ok_bounds et md q, score_intent_archive_ok_bounds et md q⟩

/-- Witness for C4: `score_intent "provider_view" {}` returns `7/10`,
which the theorem places in `[0,1]`. -/
theorem intent_score_in_unit_interval_witness :
    score_intent "provider_view" [] = .ok (7/10) ∧
    (0 ≤ (7/10 : ℚ) ∧ (7/10 : ℚ) ≤ 1) := by
  have h : score_intent "provider_view" [] = .ok (7/10) := by
    simp [score_intent, intentBase, min_def]
    norm_num
  exact ⟨h, (intent_score_in_unit_interval "provider_view" [] (7/10)).1 h⟩

/-- C4 counterexample: on the metadata mapping `{"result_count": "many"}`
the live `score_intent` raises `TypeError` (Python compares the string to
`10`) instead of returning a float in `[0,1]`. -/
theorem intent_score_typeerror_counterexample :
    score_intent "search" [("result_count", .vStr "many")]
      = .error "TypeError: < not supported between str and int" := by
  rfl

/-- The archived adjustment chain on the query `"urgent aba therapy"`:
urgency boost `+0.2` and service boost `+0.15` fire, nothing else. -/
theorem archiveAdjust_urgent (b : ℚ) :
    archiveAdjust b [("query", .vStr "urgent aba therapy")]
      = .ok (max 0 (min 1 (b + 1/5 + 3/20))) := by
  rfl

/-- The archived adjustment chain on the query `"cheap therapy"`: only the
price-sensitivity penalty `-0.1` fires. -/
theorem archiveAdjust_cheap (b : ℚ) :
    archiveAdjust b [("query", .vStr "cheap therapy")]
      = .ok (max 0 (min 1 (b - 1/10))) := by
  rfl

/-- For a base score in the archived table's range, the clamped
urgent-query score strictly exceeds the clamped cheap-query score. -/
theorem clamp_urgent_gt_cheap (b : ℚ) (h0 : 0 ≤ b) (h1 : b ≤ 19/20) :
    max 0 (min 1 (b - 1/10)) < max 0 (min 1 (b + 1/5 + 3/20)) := by
  have hA : min 1 (b - 1/10) = b - 1/10 := min_eq_right (by linarith)
  rcases le_or_lt (b + 1/5 + 3/20) 1 with hc | hc
  · have hB : min 1 (b + 1/5 + 3/20) = b + 1/5 + 3/20 := min_eq_right hc
    rw [hA, hB, max_eq_right (by linarith : (0:ℚ) ≤ b + 1/5 + 3/20)]
    exact max_lt (by linarith) (by linarith)
  · have hB : min 1 (b + 1/5 + 3/20) = 1 := min_eq_left (by linarith)
    rw [hA, hB, max_eq_right zero_le_one]
    exact max_lt (by norm_num) (by linarith)

/-- C5 (amended): for every event kind, the live scorer
(`analytics/intent_model.py`) ignores the free-text query entirely and
gives the two events equal scores, while the archived scorer
(`intent.py`) scores the `"urgent aba therapy"` event strictly higher
than the `"cheap therapy"` event. -/
theorem urgent_query_scores (et : String) :
    score_intent et [("query", .vStr "urgent aba therapy")]
      = score_intent et [("query", .vStr "cheap therapy")] ∧
    ∃ a b : ℚ,
      score_intent_archive et [("query", .vStr "urgent aba therapy")] = .ok a ∧
      score_intent_archive et [("query", .vStr "cheap therapy")] = .ok b ∧
      b < a := by
  refine ⟨rfl, max 0 (min 1 (archiveBase et + 1/5 + 3/20)),
    max 0 (min 1 (archiveBase et - 1/10)),
    archiveAdjust_urgent _, archiveAdjust_cheap _, ?_⟩
  have h := archiveBase_bounds et
  exact clamp_urgent_gt_cheap _ (by linarith [h.1]) h.2

/-- C5 counterexample: under the live scorer an event with query
`"urgent aba therapy"` and an otherwise-identical event with query
`"cheap therapy"` both score exactly `3/4` — the first is not strictly
greater. -/
theorem urgent_vs_cheap_counterexample :
    score_intent "provider_view" [("query", .vStr "urgent aba therapy")]
        = .ok (3/4) ∧
    score_intent "provider_view" [("query", .vStr "cheap therapy")]
        = .ok (3/4) := by
  constructor <;>
    · simp [score_intent, intentBase, mdGetD, pyLtInt, pyLeInt, List.lookup, min_def]
      norm_num

/-- C1 (confirmed): the worker acknowledges an entry only after both the
persist and the stats update have returned successfully, and a raise
leaves nothing committed and the entry unacknowledged for redelivery.
In this code the persist step in fact always raises — it hands the
`@contextmanager` `get_db()` result straight to `.cursor()` — so every
pass takes the `except` path before any INSERT or commit: both tables
are untouched and the acknowledgement set is exactly what it was. -/
theorem worker_throw_nothing_commits_unacked (st : WorkerState)
    (mid : String) (ev : EventMap) (now : Nat) :
    (∃ e, persist_user_activity ev st.db.user_activity now = .error e)
    ∧ (processEntry st mid ev now).db.user_activity = st.db.user_activity
    ∧ (processEntry st mid ev now).db.provider_stats = st.db.provider_stats
    ∧ (mid ∈ (processEntry st mid ev now).acked ↔ mid ∈ st.acked) :=
  ⟨⟨_, rfl⟩, rfl, rfl, Iff.rfl⟩

/-- C3 evaluated at the spec's scenario-1 event
`{event: provider_view, provider_id: 42, session_id: abc}` on an empty
store: the worker inserts no `user_activity` row, provider 42's `views`
counter stays 0, and the entry is not acknowledged — the persist step
raises `AttributeError` at `get_db().cursor()` before any SQL runs, so
the insert-and-increment the claim (and spec scenario 1) describe can
never happen. -/
theorem worker_view_event_no_effect :
    processEntry ⟨⟨[], []⟩, []⟩ "1-1"
        [("event", "provider_view"), ("provider_id", "42"), ("session_id", "abc")]
        0
      = ⟨⟨[], []⟩, []⟩
    ∧ statViews ((processEntry ⟨⟨[], []⟩, []⟩ "1-1"
        [("event", "provider_view"), ("provider_id", "42"), ("session_id", "abc")]
        0).db.provider_stats) 42 = 0
    ∧ (∃ e, persist_user_activity
        [("event", "provider_view"), ("provider_id", "42"), ("session_id", "abc")]
        [] 0 = .error e) :=
  ⟨rfl, rfl, ⟨_, rfl⟩⟩

/-- C10: when the event's type carries no tracked signal, or its
`provider_id` is absent, empty, `"null"` or unparseable,
`update_provider_stats` performs no write at all (these guards run before
any DB access in the source, so the call also cannot raise):
`provider_stats` is returned unchanged. -/
theorem update_provider_stats_frame (ev : EventMap) (stats : List StatsRow)
    (now : Nat)
    (h : trackedSignal (eventTypeOf ev) = false ∨ badProviderId ev = true) :
    update_provider_stats ev stats now = .ok stats := by
  unfold update_provider_stats
  cases hg : evGet ev "provider_id" with
  | none => rfl
  | some raw =>
    dsimp only
    by_cases hraw : raw = "" ∨ raw = "null"
    · rw [if_pos hraw]
    · rw [if_neg hraw]
      cases hp : pyIntOfString raw with
      | none => rfl
      | some pid =>
        have htr : trackedSignal (eventTypeOf ev) = false := by
          rcases h with h | h
          · exact h
          · exfalso
            unfold badProviderId at h
            rw [hg] at h
            simp only [decide_eq_true_eq, Bool.or_eq_true, decide_eq_true_eq,
              Option.isNone_iff_eq_none] at h
            rcases h with h | h | h
            · exact hraw (Or.inl h)
            · exact hraw (Or.inr h)
            · rw [hp] at h; exact Option.noConfusion h
        unfold trackedSignal at htr
        simp only [decide_eq_false_iff_not] at htr
        push_neg at htr
        obtain ⟨h1, h2, h3, h4, h5⟩ := htr
        exact if_pos ⟨if_neg h1, if_neg (by tauto), if_neg (by tauto)⟩

/-- Witness for C10: a `search` event with a perfectly valid
`provider_id` still writes nothing, on a non-empty stats table. -/
theorem update_provider_stats_frame_witness :
    (trackedSignal (eventTypeOf [("event", "search"), ("provider_id", "42")])
        = false
      ∨ badProviderId [("event", "search"), ("provider_id", "42")] = true)
    ∧ update_provider_stats [("event", "search"), ("provider_id", "42")]
        [⟨7, 3, 0, 2, 0⟩] 0 = .ok [⟨7, 3, 0, 2, 0⟩] := by
  have hh : trackedSignal
      (eventTypeOf [("event", "search"), ("provider_id", "42")]) = false := by
    simp [trackedSignal, eventTypeOf, evGet, List.lookup]
  exact ⟨Or.inl hh, update_provider_stats_frame _ _ _ (Or.inl hh)⟩

/-- The bulk UPDATE turns exactly the matching rows into rows owned by
`u`: the count of rows with `user_id = u` grows by the number of
matches. -/
theorem stitchUpdate_countP_user (s : String) (u : Int)
    (rows : List ActivityRow) :
    (stitchUpdate s u rows).countP (fun r => r.user_id = some u)
      = rows.countP (fun r => r.user_id = some u)
        + rows.countP (fun r => stitchMatch s r) := by
  induction rows with
  | nil => rfl
  | cons r rows ih =>
    simp only [stitchUpdate, List.map_cons, List.countP_cons] at ih ⊢
    by_cases hm : stitchMatch s r
    · have hu : r.user_id = none := by
        have := of_decide_eq_true hm
        exact this.2
      simp [hm, hu, ih]
      omega
    · have hm' : stitchMatch s r = false := eq_false_of_ne_true hm
      simp [hm', ih]
      omega

/-- After the bulk UPDATE no row matches the
`session_id = s AND user_id IS NULL` guard any more, and re-running the
UPDATE is the identity. -/
theorem stitchUpdate_idempotent (s : String) (u : Int)
    (rows : List ActivityRow) :
    (stitchUpdate s u rows).countP (fun r => stitchMatch s r) = 0
    ∧ stitchUpdate s u (stitchUpdate s u rows) = stitchUpdate s u rows := by
  induction rows with
  | nil => exact ⟨rfl, rfl⟩
  | cons r rows ih =>
    have hhead : ∀ r0 : ActivityRow,
        stitchMatch s (if stitchMatch s r0 then { r0 with user_id := some u }
          else r0) = false := by
      intro r0
      by_cases hm : stitchMatch s r0
      · rw [if_pos hm]
        simp [stitchMatch]
      · rw [if_neg hm]
        exact eq_false_of_ne_true hm
    constructor
    · simp only [stitchUpdate, List.map_cons, List.countP_cons] at ih ⊢
      simpa [hhead r] using ih.1
    · have ihu := ih.2
      simp only [stitchUpdate, List.map_cons] at ihu ⊢
      rw [show (if stitchMatch s (if stitchMatch s r then
            { r with user_id := some u } else r) = true then
            { (if stitchMatch s r then { r with user_id := some u } else r)
              with user_id := some u }
          else (if stitchMatch s r then { r with user_id := some u } else r))
          = (if stitchMatch s r then { r with user_id := some u } else r) by
        simp [hhead r]]
      rw [ihu]

/-- C2 (confirmed): the fault-free merge reassigns exactly the rows with
`session_id = s` and no user id — returning their count `n`, raising the
number of rows owned by `u` by exactly `n` and leaving every
non-matching row in place — and an immediately repeated call with the
same arguments changes no row and returns `0`. -/
theorem identity_stitch_merge_spec (s : String) (u : Int)
    (rows : List ActivityRow) (n : Nat)
    (hn : rows.countP (fun r => stitchMatch s r) = n) (hpos : 0 < n) :
    merge_anonymous_history_into_user .none s u rows
      = .ok (stitchUpdate s u rows, (n : Int))
    ∧ (stitchUpdate s u rows).countP (fun r => r.user_id = some u)
      = rows.countP (fun r => r.user_id = some u) + n
    ∧ (∀ r ∈ rows, stitchMatch s r = false → r ∈ stitchUpdate s u rows)
    ∧ merge_anonymous_history_into_user .none s u (stitchUpdate s u rows)
      = .ok (stitchUpdate s u rows, 0) := by
  refine ⟨?_, ?_, ?_, ?_⟩
  · simp [merge_anonymous_history_into_user, stitchCount, hn]
  · rw [stitchUpdate_countP_user, hn]
  · intro r hr hm
    exact List.mem_map.mpr ⟨r, hr, by simp [hm]⟩
  · simp [merge_anonymous_history_into_user, stitchCount,
      (stitchUpdate_idempotent s u rows).1, (stitchUpdate_idempotent s u rows).2]

/-- Witness for C2 at the spec's scenario 3: two anonymous rows for
session `anon-1` merge into user 7 with count 2; the repeated call
returns 0 and changes nothing. -/
theorem identity_stitch_merge_witness :
    ([⟨some "search", none, some "anon-1", none, none, none, [], 0, none⟩,
      ⟨some "provider_view", some "5", some "anon-1", none, none, none, [], 1,
        none⟩].countP (fun r => stitchMatch "anon-1" r) = 2 ∧ 0 < 2)
    ∧ merge_anonymous_history_into_user .none "anon-1" 7
        [⟨some "search", none, some "anon-1", none, none, none, [], 0, none⟩,
         ⟨some "provider_view", some "5", some "anon-1", none, none, none, [], 1,
           none⟩]
        = .ok (stitchUpdate "anon-1" 7
            [⟨some "search", none, some "anon-1", none, none, none, [], 0, none⟩,
             ⟨some "provider_view", some "5", some "anon-1", none, none, none,
               [], 1, none⟩], (2 : Int))
    ∧ merge_anonymous_history_into_user .none "anon-1" 7
        (stitchUpdate "anon-1" 7
          [⟨some "search", none, some "anon-1", none, none, none, [], 0, none⟩,
           ⟨some "provider_view", some "5", some "anon-1", none, none, none,
             [], 1, none⟩])
        = .ok (stitchUpdate "anon-1" 7
            [⟨some "search", none, some "anon-1", none, none, none, [], 0, none⟩,
             ⟨some "provider_view", some "5", some "anon-1", none, none, none,
               [], 1, none⟩], 0) := by
  have h := identity_stitch_merge_spec "anon-1" 7
    [⟨some "search", none, some "anon-1", none, none, none, [], 0, none⟩,
     ⟨some "provider_view", some "5", some "anon-1", none, none, none, [], 1,
       none⟩] 2 (by rfl) (by norm_num)
  exact ⟨⟨by rfl, by norm_num⟩, h.1, h.2.2.2⟩

/-- C7 (confirmed): whatever storage fault strikes, the stitcher never
raises to its caller, and on any fault it reports zero merged rows with
the table exactly as it was — no partial reassignment can persist, since
the single UPDATE's transaction is only committed on success. -/
theorem identity_stitch_fault_safety (f : MergeFault) (s : String) (u : Int)
    (rows : List ActivityRow) :
    (∃ res, merge_anonymous_history_into_user f s u rows = .ok res)
    ∧ (f ≠ .none →
        merge_anonymous_history_into_user f s u rows = .ok (rows, 0)) := by
  cases f
  case none =>
    exact ⟨⟨(stitchUpdate s u rows, stitchCount s rows), rfl⟩,
      fun h => absurd rfl h⟩
  case atExecute => exact ⟨⟨(rows, 0), rfl⟩, fun _ => rfl⟩
  case atCommit => exact ⟨⟨(rows, 0), rfl⟩, fun _ => rfl⟩

/-- Witness for C7: a storage error during the UPDATE on a one-row table
returns `(unchanged table, 0)` without raising. -/
theorem identity_stitch_fault_safety_witness :
    (MergeFault.atExecute ≠ MergeFault.none)
    ∧ merge_anonymous_history_into_user .atExecute "anon-1" 7
        [⟨some "search", none, some "anon-1", none, none, none, [], 0, none⟩]
        = .ok ([⟨some "search", none, some "anon-1", none, none, none, [], 0,
            none⟩], 0) := by
  have h := identity_stitch_fault_safety .atExecute "anon-1" 7
    [⟨some "search", none, some "anon-1", none, none, none, [], 0, none⟩]
  exact ⟨by decide, h.2 (by decide)⟩

/-- C8 evaluated at a failing input (the spec's round-trip equality is
the intent; the caching code degrades values): on a miss the nearby
handler returns the fresh result — here a one-element `Provider` list —
and caches `json.dumps(results, default=str)`; the in-TTL second lookup
with identical parameters is a hit that returns the loaded string list,
which is NOT equal to the fresh result (the pydantic model came back as
its `str()` rendering), although the executor is indeed not invoked
again. -/
theorem geo_cache_hit_degraded :
    (searchNearby .healthy
        (fun _ : Nat => [PyObj.pObj "Provider id=1 name=A distance=2.50"])
        (fun _ => "nearby") 60 ⟨[], 0⟩ 0 0).1
      = [PyObj.pObj "Provider id=1 name=A distance=2.50"]
    ∧ (searchNearby .healthy
        (fun _ : Nat => [PyObj.pObj "Provider id=1 name=A distance=2.50"])
        (fun _ => "nearby") 60
        (searchNearby .healthy
          (fun _ : Nat => [PyObj.pObj "Provider id=1 name=A distance=2.50"])
          (fun _ => "nearby") 60 ⟨[], 0⟩ 0 0).2 0 30).1
      = [PyObj.pStr "Provider id=1 name=A distance=2.50"]
    ∧ [PyObj.pStr "Provider id=1 name=A distance=2.50"]
        ≠ [PyObj.pObj "Provider id=1 name=A distance=2.50"]
    ∧ (searchNearby .healthy
        (fun _ : Nat => [PyObj.pObj "Provider id=1 name=A distance=2.50"])
        (fun _ => "nearby") 60
        (searchNearby .healthy
          (fun _ : Nat => [PyObj.pObj "Provider id=1 name=A distance=2.50"])
          (fun _ => "nearby") 60 ⟨[], 0⟩ 0 0).2 0 30).2.calls
      = (searchNearby .healthy
          (fun _ : Nat => [PyObj.pObj "Provider id=1 name=A distance=2.50"])
          (fun _ => "nearby") 60 ⟨[], 0⟩ 0 0).2.calls := by
  refine ⟨rfl, rfl, by decide, rfl⟩

/-- C9 counterexample: the legacy `app/main.py::nearby` handler calls
`redis_client.get` with no `try/except`, so with the cache down the
request fails with a Redis connection error instead of degrading to a
miss. -/
theorem main_nearby_cache_failure_counterexample :
    mainNearby .down (fun _ : Nat => [PyObj.pNum 1]) (fun _ => "k") ⟨[], 0⟩ 5 0
      = .error "redis.exceptions.ConnectionError" := by
  rfl

/-- C9 (amended): the guarded cache helpers (`CacheService` and the
search-router `cache_get`/`cache_set`) treat every read failure as a
miss and skip every failed write, and the search-router `nearby`
endpoint returns the same functional result with the cache down as with
a healthy cache holding no entry for the key; but the legacy `main.py`
nearby handler accesses Redis unguarded, so a cache failure there does
surface as a request failure. -/
theorem cache_errors_absorbed {P : Type} (exec : P → List PyObj)
    (keyOf : P → String) (ttl : Nat) (st : GeoState (List PyObj)) (p : P)
    (t : Nat) :
    (searchNearby .down exec keyOf ttl st p t).1 = exec p
    ∧ (searchNearby .down exec keyOf ttl st p t).2.cache = st.cache
    ∧ cache_get .down st.cache (keyOf p) t = none
    ∧ cache_set .down st.cache (keyOf p) (exec p) ttl t = st.cache
    ∧ (cacheFetch st.cache (keyOf p) t = none →
        (searchNearby .healthy exec keyOf ttl st p t).1
          = (searchNearby .down exec keyOf ttl st p t).1) := by
  refine ⟨rfl, rfl, rfl, rfl, ?_⟩
  intro hm
  simp [searchNearby, readThrough, hm]

/-- Witness for C9's amended theorem: down-cache and healthy-empty-cache
nearby lookups agree on a concrete query. -/
theorem cache_errors_absorbed_witness :
    cacheFetch (([] : Cache (List PyObj))) "k" 0 = none
    ∧ (searchNearby .healthy (fun _ : Nat => [PyObj.pNum 1]) (fun _ => "k") 60
        ⟨[], 0⟩ 5 0).1
      = (searchNearby .down (fun _ : Nat => [PyObj.pNum 1]) (fun _ => "k") 60
        ⟨[], 0⟩ 5 0).1 := by
  have h := cache_errors_absorbed (fun _ : Nat => [PyObj.pNum 1]) (fun _ => "k")
    60 (⟨[], 0⟩ : GeoState (List PyObj)) 5 0
  exact ⟨rfl, h.2.2.2.2 rfl⟩

/-- C6 counterexample: a zero-result search tracked through
`track_search_result` is stored with `intent_score = 1.5`, which is not
in `[0,1]` — no clamping happens before the write. -/
theorem unmet_search_score_counterexample :
    (track_search_result ⟨some "aba", none, none, some 25, 0⟩
        "/analytics/track/search_result" "POST").metadata.lookup "intent_score"
      = some (.vRat (3/2))
    ∧ ¬ ((3/2 : ℚ) ≤ 1) := by
  constructor
  · rfl
  · norm_num

/-- C6 (amended): every `analytics_events_v2` row written by
`track_search_result` carries exactly the fixed unclamped intent score —
`1.5` for an unmet (zero-result) search, `1.2` for low supply, `0.5`
otherwise — so stored intent scores are not confined to `[0,1]`. -/
theorem track_search_result_fixed_scores (p : SearchResultEvent)
    (path method : String) :
    (track_search_result p path method).metadata.lookup "intent_score"
      = some (.vRat (if p.results_count = 0 then 3/2
          else if p.results_count ≤ 2 then 6/5 else 1/2)) := by
  rfl

end Autizim
